import Mathlib

/-!
Shallow embedding of `pulse-binding/src/mainloop/standard.rs` (the standard
PulseAudio main-loop binding) together with a spec-derived model of the
underlying native main-loop mechanism, which the binding reaches only through
FFI calls (`capi::pa_mainloop_*`).

Conventions:
* Rust `i32` values crossing the FFI boundary are embedded as `Int`; the
  `as u32` cast is made explicit (`intAsU32`).
* Raw pointers are embedded as `Nat`, with `0` playing the role of the null
  pointer.
* A Rust function that can `panic!`/`assert!` is embedded as `Except Unit _`,
  where `Except.error ()` marks the fatal assertion failure.
* The native mechanism itself is not part of the translated source; where a
  claim needs its behaviour, a definition carries a doc comment starting
  `Modelled from the spec:` and follows the specification's words.
-/

namespace PulseStandard

/-- Embedding of the `InterateResult` enum (standard.rs lines 212-219):
`Success` carries the number of sources dispatched (a `u32`), `Quit`
carries quit's retval, `Err` carries the error value (both `i32`). -/
inductive InterateResult where
  | Success (count : Nat)
  | Quit (retval : Int)
  | Err (code : Int)
deriving DecidableEq, Repr

namespace InterateResult

/-- Embedding of `InterateResult::is_success` (standard.rs 224-229). -/
def is_success : InterateResult → Bool
  | Success _ => true
  | _ => false

/-- Embedding of `InterateResult::is_quit` (standard.rs 233-238). -/
def is_quit : InterateResult → Bool
  | Quit _ => true
  | _ => false

/-- Embedding of `InterateResult::is_error` (standard.rs 242-247). -/
def is_error : InterateResult → Bool
  | Err _ => true
  | _ => false

end InterateResult

/-- The Rust `as u32` cast applied to an `i32` value embedded as `Int`:
reduce modulo 2^32 and read the result as a natural number. -/
def intAsU32 (r : Int) : Nat := (r % (2 ^ 32)).toNat

/-- The match expression of `Mainloop::iterate` (standard.rs 355-359):
given the underlying call's return code `r` and the value `retval` left in
the out-parameter, the first arm maps `r >= 0` to `Success(r as u32)`, the
second maps the sentinel `-2` to `Quit(retval)`, and the final catch-all
maps any other `r` to `Err(r)`. -/
def iterateMatch (r : Int) (retval : Int) : InterateResult :=
  if 0 ≤ r then InterateResult.Success (intAsU32 r)
  else if r = -2 then InterateResult.Quit retval
  else InterateResult.Err r

/-- Spec-modelled state of the native main loop behind the FFI pointer.
Modelled from the spec: the loop records whether a quit has been requested
and "the exit code most recently set via Quit"; `Quit` requests are pending
until the next iteration boundary observes them. -/
structure PAState where
  quitRequested : Bool
  retval : Int
deriving DecidableEq, Repr

/-- Modelled from the spec: `pa_mainloop_quit` "requests loop termination"
and is "idempotent — calling it again before the loop observes the first
request simply overwrites the pending retval". -/
def pa_mainloop_quit (s : PAState) (retval : Int) : PAState :=
  { quitRequested := true, retval := retval }

/-- Modelled from the spec: `pa_mainloop_get_retval` "returns the exit code
most recently set via Quit"; it simply reads the stored value, whatever the
loop's state. -/
def pa_mainloop_get_retval (s : PAState) : Int :=
  s.retval

/-- Modelled from the spec: one underlying iteration
(`pa_mainloop_iterate`). When a quit is pending, "the next iteration's
poll/dispatch step will short-circuit": nothing is dispatched, the stored
retval is written through the out-parameter, and the quit sentinel `-2` is
returned, in either blocking mode. Otherwise the mechanism's outcome is
abstracted by `oracle` (a non-negative value is the dispatch count, a
negative value an error) and the out-parameter is left untouched. The
result triple is (return code, value written to the out-parameter if any,
number of sources dispatched). -/
def pa_mainloop_iterate (s : PAState) (block : Bool) (oracle : Int) :
    Int × Option Int × Nat :=
  if s.quitRequested then (-2, some s.retval, 0)
  else (oracle, none, if 0 ≤ oracle then oracle.toNat else 0)

/-- Namespace for the embedded methods of the Rust `Mainloop` wrapper. -/
structure Mainloop where
  state : PAState
deriving DecidableEq, Repr

namespace Mainloop

/-- Embedding of `Mainloop::quit` (standard.rs 389-391): forwards the
retval to `pa_mainloop_quit` on the inner pointer. -/
def quit (s : PAState) (retval : Int) : PAState :=
  pa_mainloop_quit s retval

/-- Embedding of `Mainloop::get_retval` (standard.rs 336-338): directly
returns `pa_mainloop_get_retval` of the inner pointer, with no check,
assertion or error path of its own. -/
def get_retval (s : PAState) : Int :=
  pa_mainloop_get_retval s

/-- Embedding of `Mainloop::iterate` (standard.rs 353-360): initialises the
out-parameter `retval` to 0, calls the underlying `pa_mainloop_iterate`,
and maps the outcome through the match of `iterateMatch`. -/
def iterate (s : PAState) (block : Bool) (oracle : Int) : InterateResult :=
  let r0 : Int := 0
  let res := pa_mainloop_iterate s block oracle
  iterateMatch res.1 (res.2.1.getD r0)

/-- Embedding of the timeout conversion inside `Mainloop::prepare`
(standard.rs 308-311): `Some(t)` is passed through unchanged, `None`
becomes `-1`. -/
def prepare_timeout (timeout : Option Int) : Int :=
  match timeout with
  | some t => t
  | none => -1

/-- Embedding of the result mapping inside `Mainloop::prepare`
(standard.rs 312-315): the underlying code `0` becomes `Ok(())`, any other
code `e` becomes `Err(e)`. -/
def prepare_result (e : Int) : Except Int Unit :=
  if e = 0 then Except.ok () else Except.error e

/-- Embedding of `Mainloop::poll` (standard.rs 319-324): the underlying
return value `e` becomes `Ok(e as u32)` when `e >= 0` and `Err(e)`
otherwise. -/
def poll (e : Int) : Except Int Nat :=
  if 0 ≤ e then Except.ok (intAsU32 e) else Except.error e

/-- Embedding of `Mainloop::dispatch` (standard.rs 328-333): the underlying
return value `e` becomes `Ok(e as u32)` when `e >= 0` and `Err(e)`
otherwise. -/
def dispatch (e : Int) : Except Int Nat :=
  if 0 ≤ e then Except.ok (intAsU32 e) else Except.error e

/-- Embedding of `Mainloop::run` (standard.rs 366-372): the binding passes
an out-parameter (initialised to 0) to `pa_mainloop_run`, which writes the
quit retval through it (`rv` is its final value) and returns a status code
`r`; the binding then returns `Some(r)` — the status code, not the
out-parameter — whenever `r >= 0`, and `None` otherwise. `rv` is bound and
then discarded, exactly as in the source. -/
def run (r : Int) (rv : Int) : Option Int :=
  if 0 ≤ r then some r else none

end Mainloop

/-- Modelled from the spec: the underlying `pa_mainloop_run` primitive
"repeatedly calls the equivalent of blocking Iterate until a quit condition
is observed, then" reports it; the exit code supplied to quit travels
through the out-parameter while the returned status merely signals, by its
sign, quit observed (non-negative) versus unrecoverable error (negative).
`status` abstracts the mechanism's choice of non-negative success code.
The result pair is (returned status, final value of the out-parameter). -/
def pa_mainloop_run (s : PAState) (status : Int) : Int × Int :=
  if s.quitRequested then (if 0 ≤ status then status else 0, s.retval)
  else (status, 0)

/-- The null raw pointer, embedded as `0`. -/
def nullPtr : Nat := 0

/-- Embedding of the pointer fields of
`MainloopInner<MainloopInternal>` (standard.rs 259, fields set at 291-292):
the native loop handle `ptr` and the cached vtable pointer `api`. -/
structure InnerPtrs where
  ptr : Nat
  api : Nat
deriving DecidableEq, Repr

/-- Embedding of `Mainloop::new` (standard.rs 280-298). The underlying
allocator's result is `allocResult` (the raw pointer `pa_mainloop_new`
returned, `0` for null) and `getApi` is the underlying
`pa_mainloop_get_api` lookup. If the allocation returned null the
constructor returns `None`; otherwise the vtable pointer is retrieved at
once and `assert!`-ed non-null (`Except.error ()` embeds that fatal
assertion), then cached in the inner structure next to the handle. -/
def mainloopNew (allocResult : Nat) (getApi : Nat → Nat) :
    Except Unit (Option InnerPtrs) :=
  if allocResult = nullPtr then Except.ok none
  else
    let api_ptr := getApi allocResult
    if api_ptr = nullPtr then Except.error ()
    else Except.ok (some { ptr := allocResult, api := api_ptr })

/-- Embedding of `Mainloop::get_api` (standard.rs 382-386): reads the
cached `api` field, `assert_eq!`-s that it is not null (`Except.error ()`
embeds the fatal assertion), and returns it. -/
def mainloopGetApi (inner : InnerPtrs) : Except Unit Nat :=
  let ptr := inner.api
  if ptr = nullPtr then Except.error () else Except.ok ptr

/-- Observable primitive steps of the teardown path, recorded in order. -/
inductive Event where
  | free (p : Nat)
  | clearPtr
  | clearApi
deriving DecidableEq, Repr

/-- Embedding of `MainloopInner::drop_actual` (standard.rs 271-275): first
`pa_mainloop_free(self.ptr)` is called with the still-cached handle, then
`self.ptr` is nulled, then `self.api` is nulled; the trace records the
three steps in source order. -/
def drop_actual (s : InnerPtrs) : List Event × InnerPtrs :=
  ([Event.free s.ptr, Event.clearPtr, Event.clearApi],
   { ptr := nullPtr, api := nullPtr })

/-- State of the reference-counted Loop Handle: the current strong count
together with the shared inner pointers. -/
structure RcLoop where
  count : Nat
  inner : InnerPtrs
deriving DecidableEq, Repr

/-- An operation on the Loop Handle: cloning the `Rc` (an event object is
handed a copy) or releasing one owning reference. -/
inductive RcOp where
  | clone
  | release
deriving DecidableEq, Repr

/-- Modelled from the spec: the shared-ownership semantics of the Loop
Handle. "Every event object created via the capability vtable receives a
clone of the Loop Handle, incrementing the shared reference count. The
native loop resources are released exactly once, when the reference count
drops to zero, via the registered teardown function" — which `Mainloop::new`
registers as `drop_actual`. A release of the last reference therefore runs
`drop_actual`; any other release merely decrements the count. -/
def rcStep (s : RcLoop) (op : RcOp) : RcLoop × List Event :=
  match op with
  | RcOp.clone => ({ count := s.count + 1, inner := s.inner }, [])
  | RcOp.release =>
    match s.count with
    | 0 => (s, [])
    | 1 =>
      let d := drop_actual s.inner
      ({ count := 0, inner := d.2 }, d.1)
    | n + 2 => ({ count := n + 1, inner := s.inner }, [])

/-- Run a sequence of clone/release operations on the Loop Handle,
accumulating the teardown trace. -/
def rcRun (s : RcLoop) : List RcOp → RcLoop × List Event
  | [] => (s, [])
  | op :: ops =>
    let st := rcStep s op
    let rest := rcRun st.1 ops
    (rest.1, st.2 ++ rest.2)

/-- An operation sequence is well formed for a given live count when every
operation acts on a handle that still has an owner: Rust's `Rc` makes it
impossible to clone or release once the count has reached zero. -/
def wfOps : Nat → List RcOp → Bool
  | _, [] => true
  | 0, _ :: _ => false
  | c + 1, RcOp.clone :: ops => wfOps (c + 2) ops
  | c + 1, RcOp.release :: ops => wfOps c ops

/-- Modelled from the spec: how the underlying mechanism interprets the
timeout handed to `pa_mainloop_prepare` — "`None`/negative means unbounded
blocking until readiness or `Wakeup`", while a non-negative `t` bounds the
subsequent poll to `t` milliseconds. `none` stands for the
block-indefinitely behaviour, `some t` for the bound of `t`. -/
def timeoutBehaviour (t : Int) : Option Int :=
  if t < 0 then none else some t

/-- Helper for the teardown theorem: running any well-formed operation
sequence on a live Loop Handle either keeps it live, with an empty teardown
trace and the inner pointers untouched, or brings the count to zero, with
exactly the ordered `drop_actual` trace and both pointers nulled. -/
theorem rcRun_cases (ops : List RcOp) : ∀ (n : Nat) (inner : InnerPtrs),
    wfOps (n + 1) ops = true →
    (0 < (rcRun { count := n + 1, inner := inner } ops).1.count ∧
       (rcRun { count := n + 1, inner := inner } ops).2 = [] ∧
       (rcRun { count := n + 1, inner := inner } ops).1.inner = inner) ∨
    ((rcRun { count := n + 1, inner := inner } ops).1.count = 0 ∧
       (rcRun { count := n + 1, inner := inner } ops).2 =
         [Event.free inner.ptr, Event.clearPtr, Event.clearApi] ∧
       (rcRun { count := n + 1, inner := inner } ops).1.inner =
         { ptr := nullPtr, api := nullPtr }) := by
  induction ops with
  | nil =>
    intro n inner _
    left
    simp [rcRun]
  | cons op ops ih =>
    intro n inner h
    cases op with
    | clone =>
      have h' : wfOps (n + 2) ops = true := h
      simpa [rcRun, rcStep] using ih (n + 1) inner h'
    | release =>
      cases n with
      | zero =>
        cases ops with
        | nil =>
          right
          simp [rcRun, rcStep, drop_actual]
        | cons op' ops' =>
          exact absurd h (by simp [wfOps])
      | succ m =>
        have h' : wfOps (m + 1) ops = true := h
        simpa [rcRun, rcStep] using ih m inner h'

/-- Claim C9: for every value of `InterateResult`, exactly one of the three
predicates `is_success`, `is_quit`, `is_error` returns `true` — they are
mutually exclusive and jointly exhaustive over the `Success`, `Quit` and
`Err` variants. -/
theorem interate_result_predicates_partition (r : InterateResult) :
    (if r.is_success then 1 else 0) + (if r.is_quit then 1 else 0) +
      (if r.is_error then 1 else 0) = 1 := by
  cases r <;> rfl

/-- Claim C2: for every underlying iteration result `r` (an `i32`, hence in
range) and out-parameter value `retval`, `Mainloop::iterate`'s match maps
`r >= 0` to `Success(r)` carrying the dispatch count, the quit sentinel
`-2` to `Quit(retval)` carrying the retval previously set by a quit call,
and any other negative `r` to `Err(r)`. -/
theorem iterate_outcome_mapping (r retval : Int)
    (hlo : -(2 ^ 31) ≤ r) (hhi : r < 2 ^ 31) :
    (0 ≤ r → iterateMatch r retval = InterateResult.Success r.toNat) ∧
    (r = -2 → iterateMatch r retval = InterateResult.Quit retval) ∧
    (r < 0 → r ≠ -2 → iterateMatch r retval = InterateResult.Err r) := by
  refine ⟨fun h => ?_, fun h => ?_, fun h hne => ?_⟩
  · simp only [iterateMatch, if_pos h, intAsU32, InterateResult.Success.injEq]
    omega
  · subst h
    rfl
  · have h1 : ¬ (0 ≤ r) := by omega
    simp [iterateMatch, h1, hne]

/-- Witness for C2 at concrete inputs: dispatch count 3 maps to
`Success 3`, the sentinel with stored retval 9 maps to `Quit 9`, and the
error code -7 maps to `Err (-7)`. -/
theorem iterate_outcome_mapping_witness :
    iterateMatch 3 9 = InterateResult.Success 3 ∧
    iterateMatch (-2) 9 = InterateResult.Quit 9 ∧
    iterateMatch (-7) 9 = InterateResult.Err (-7) :=
  ⟨(iterate_outcome_mapping 3 9 (by decide) (by decide)).1 (by decide),
   (iterate_outcome_mapping (-2) 9 (by decide) (by decide)).2.1 rfl,
   (iterate_outcome_mapping (-7) 9 (by decide) (by decide)).2.2 (by decide)
     (by decide)⟩

/-- Claim C3: `Mainloop::prepare` passes `None` as `-1` and `Some(t)` as
`t`, so under the mechanism's timeout interpretation `None` and every
negative `Some(t)` both mean block indefinitely, while a non-negative
`Some(t)` bounds the subsequent poll to `t` milliseconds; and it returns
`Ok(())` exactly when the underlying call returns `0`, `Err(e)` for any
nonzero `e`. -/
theorem prepare_timeout_and_result (t e : Int) (ht : t < 0) (he : e ≠ 0) :
    timeoutBehaviour (Mainloop.prepare_timeout none) = none ∧
    timeoutBehaviour (Mainloop.prepare_timeout (some t)) = none ∧
    (∀ u : Int, 0 ≤ u →
      timeoutBehaviour (Mainloop.prepare_timeout (some u)) = some u) ∧
    Mainloop.prepare_result 0 = Except.ok () ∧
    Mainloop.prepare_result e = Except.error e := by
  refine ⟨rfl, ?_, fun u hu => ?_, rfl, ?_⟩
  · simp [Mainloop.prepare_timeout, timeoutBehaviour, ht]
  · have h1 : ¬ (u < 0) := by omega
    simp [Mainloop.prepare_timeout, timeoutBehaviour, h1]
  · simp [Mainloop.prepare_result, he]

/-- Witness for C3 at concrete inputs: `Some(-7)` blocks indefinitely just
like `None`, `Some(20)` bounds the poll to 20ms, and the nonzero code 5
yields `Err 5`. -/
theorem prepare_timeout_and_result_witness :
    timeoutBehaviour (Mainloop.prepare_timeout (some (-7))) = none ∧
    timeoutBehaviour (Mainloop.prepare_timeout (some 20)) = some 20 ∧
    Mainloop.prepare_result 5 = Except.error 5 :=
  ⟨(prepare_timeout_and_result (-7) 5 (by decide) (by decide)).2.1,
   (prepare_timeout_and_result (-7) 5 (by decide) (by decide)).2.2.1 20
     (by decide),
   (prepare_timeout_and_result (-7) 5 (by decide) (by decide)).2.2.2.2⟩

/-- Claim C7: for every underlying return value `e` (an `i32`, hence in
range), `poll` returns `Ok(e)` — the count of ready descriptors, a
non-negative number — when `e >= 0` and `Err(e)` when `e` is negative, and
`dispatch` likewise returns `Ok(e)` — the number of sources dispatched —
when `e >= 0` and `Err(e)` when `e` is negative; both are total functions
into a result type, so errors are returned values, never panics. -/
theorem poll_dispatch_error_mapping (e : Int)
    (hlo : -(2 ^ 31) ≤ e) (hhi : e < 2 ^ 31) :
    (0 ≤ e → Mainloop.poll e = Except.ok e.toNat ∧
      Mainloop.dispatch e = Except.ok e.toNat) ∧
    (e < 0 → Mainloop.poll e = Except.error e ∧
      Mainloop.dispatch e = Except.error e) := by
  refine ⟨fun h => ?_, fun h => ?_⟩
  · constructor <;>
      · simp only [Mainloop.poll, Mainloop.dispatch, if_pos h, intAsU32,
          Except.ok.injEq]
        omega
  · have h1 : ¬ (0 ≤ e) := by omega
    constructor <;> simp [Mainloop.poll, Mainloop.dispatch, h1]

/-- Witness for C7 at concrete inputs: 4 ready descriptors map to `Ok 4`,
and the error code -3 maps to `Err (-3)` for both `poll` and `dispatch`. -/
theorem poll_dispatch_error_mapping_witness :
    Mainloop.poll 4 = Except.ok 4 ∧
    Mainloop.dispatch (-3) = Except.error (-3) :=
  ⟨((poll_dispatch_error_mapping 4 (by decide) (by decide)).1 (by decide)).1,
   ((poll_dispatch_error_mapping (-3) (by decide) (by decide)).2
     (by decide)).2⟩

/-- Claim C1, evaluated at the failing input: after `Quit(-5)` has been
requested, the underlying run primitive reports quit with a non-negative
status code (here 1) and writes the exit code -5 through the
out-parameter; the binding's `run` then returns `Some(1)` — the status
code — and not `Some(-5)`, the retval supplied to quit, contradicting the
method's own documentation ("On success, returns `Some` containing quit's
retval"). -/
theorem run_returns_status_not_retval :
    pa_mainloop_run { quitRequested := true, retval := -5 } 1 = (1, -5) ∧
    Mainloop.run 1 (-5) = some 1 ∧
    Mainloop.run 1 (-5) ≠ some (-5) := by
  refine ⟨rfl, rfl, by decide⟩

/-- Claim C4: quit requests are last-write-wins and observed whole at the
next iteration boundary — after `quit a` then `quit b`, the next `iterate`
(in either blocking mode, for any outcome the mechanism would otherwise
have produced) yields exactly `Quit b`, the underlying iteration dispatches
no pending sources in that same call, and `get_retval` returns `b`. -/
theorem quit_last_write_wins (s : PAState) (a b : Int) (block : Bool)
    (oracle : Int) :
    Mainloop.iterate (Mainloop.quit (Mainloop.quit s a) b) block oracle =
      InterateResult.Quit b ∧
    (pa_mainloop_iterate (Mainloop.quit (Mainloop.quit s a) b) block
      oracle).2.2 = 0 ∧
    Mainloop.get_retval (Mainloop.quit (Mainloop.quit s a) b) = b := by
  refine ⟨?_, rfl, rfl⟩
  show iterateMatch (-2) b = InterateResult.Quit b
  rfl

/-- Claim C10: `get_retval` has no precondition — for every loop state,
including any state where no quit has ever been requested
(`quitRequested = false`), it simply returns the value the underlying
mechanism holds, with no failure, panic or error path. -/
theorem get_retval_total (q : Bool) (v : Int) :
    Mainloop.get_retval { quitRequested := q, retval := v } = v := rfl

/-- Claim C5: `Mainloop::new` returns `None` exactly when the underlying
allocation fails (and no partial object otherwise escapes); when the
allocation succeeds, the vtable pointer is retrieved at once — a null
result there is a fatal assertion, not a recoverable error — and cached, so
that `get_api` on the constructed inner returns that non-null capability
pointer immediately. -/
theorem new_none_iff_alloc_failure (allocResult : Nat) (getApi : Nat → Nat) :
    (mainloopNew allocResult getApi = Except.ok none ↔
      allocResult = nullPtr) ∧
    (allocResult ≠ nullPtr → getApi allocResult = nullPtr →
      mainloopNew allocResult getApi = Except.error ()) ∧
    (allocResult ≠ nullPtr → getApi allocResult ≠ nullPtr →
      mainloopNew allocResult getApi =
        Except.ok (some { ptr := allocResult, api := getApi allocResult }) ∧
      mainloopGetApi { ptr := allocResult, api := getApi allocResult } =
        Except.ok (getApi allocResult) ∧
      getApi allocResult ≠ nullPtr) := by
  refine ⟨⟨fun h => ?_, fun h => ?_⟩, fun h1 h2 => ?_, fun h1 h2 => ?_⟩
  · by_contra hne
    by_cases hapi : getApi allocResult = nullPtr <;>
      simp [mainloopNew, hne, hapi] at h
  · simp [mainloopNew, h]
  · simp [mainloopNew, h1, h2]
  · exact ⟨by simp [mainloopNew, h1, h2],
      by simp [mainloopGetApi, h2], h2⟩

/-- Witness for C5 at concrete inputs: with a successful allocation at
address 3 and a vtable lookup returning 7, construction yields the cached
pair and `get_api` returns the non-null pointer 7; with a failed
allocation, construction returns `None`. -/
theorem new_none_iff_alloc_failure_witness :
    mainloopNew 3 (fun _ => 7) =
      Except.ok (some { ptr := 3, api := 7 }) ∧
    mainloopGetApi { ptr := 3, api := 7 } = Except.ok 7 ∧
    mainloopNew nullPtr (fun _ => 7) = Except.ok none :=
  ⟨((new_none_iff_alloc_failure 3 (fun _ => 7)).2.2 (by decide)
      (by decide)).1,
   ((new_none_iff_alloc_failure 3 (fun _ => 7)).2.2 (by decide)
      (by decide)).2.1,
   ((new_none_iff_alloc_failure nullPtr (fun _ => 7)).1).2 rfl⟩

/-- Claim C6: over every well-formed sequence of clone/release operations
on a live Loop Handle with non-null pointers, the teardown runs exactly
once, precisely when the reference count reaches zero — while the count
stays positive the teardown trace is empty and the native handle and
cached vtable pointer are unchanged, stable and non-null; when the count
reaches zero the trace is exactly one free of the still-valid original
handle followed by the nulling of the handle and then of the vtable
pointer, leaving both null. -/
theorem teardown_exactly_once (ops : List RcOp) (n p a : Nat)
    (hp : p ≠ nullPtr) (ha : a ≠ nullPtr)
    (hwf : wfOps (n + 1) ops = true) :
    (0 < (rcRun { count := n + 1, inner := { ptr := p, api := a } }
        ops).1.count →
      (rcRun { count := n + 1, inner := { ptr := p, api := a } }
        ops).2 = [] ∧
      (rcRun { count := n + 1, inner := { ptr := p, api := a } }
        ops).1.inner = { ptr := p, api := a } ∧
      (rcRun { count := n + 1, inner := { ptr := p, api := a } }
        ops).1.inner.ptr ≠ nullPtr ∧
      (rcRun { count := n + 1, inner := { ptr := p, api := a } }
        ops).1.inner.api ≠ nullPtr) ∧
    ((rcRun { count := n + 1, inner := { ptr := p, api := a } }
        ops).1.count = 0 →
      (rcRun { count := n + 1, inner := { ptr := p, api := a } }
        ops).2 = [Event.free p, Event.clearPtr, Event.clearApi] ∧
      (rcRun { count := n + 1, inner := { ptr := p, api := a } }
        ops).1.inner = { ptr := nullPtr, api := nullPtr }) := by
  rcases rcRun_cases ops n { ptr := p, api := a } hwf with
    ⟨hpos, htr, hinner⟩ | ⟨hzero, htr, hinner⟩
  · refine ⟨fun _ => ⟨htr, hinner, ?_, ?_⟩, fun h0 => absurd h0 (by omega)⟩
    · rw [hinner]; exact hp
    · rw [hinner]; exact ha
  · exact ⟨fun hpos => absurd hzero (by omega), fun _ => ⟨htr, hinner⟩⟩

/-- Witness for C6 at a concrete run: start with one owner of the handle
(5, 7), clone once for an event object, then release both references; the
teardown trace is exactly one free of the original handle 5 followed by
the two nulling steps. -/
theorem teardown_exactly_once_witness :
    (rcRun { count := 1, inner := { ptr := 5, api := 7 } }
      [RcOp.clone, RcOp.release, RcOp.release]).2 =
      [Event.free 5, Event.clearPtr, Event.clearApi] :=
  ((teardown_exactly_once [RcOp.clone, RcOp.release, RcOp.release] 0 5 7
    (by decide) (by decide) (by decide)).2 (by decide)).1

end PulseStandard
